import Mathlib

/-!
Verification of the peer mesh session manager implemented in
src/src/components/VideoRoom.tsx.

The component keeps its state in React hooks; the shallow embedding below
turns each handler into a pure state-transition function.  Machine objects
are modelled as plain data: a MediaStreamTrack is a record with a numeric
id, a kind, an enabled flag and a stopped flag; a MediaStream is a list of
tracks; an RTCRtpSender is a record holding its current (optional) track; a
MediaConnection is a record with the remote peer id, a numeric connection
id and its sender list.  The `connections.current` object is an association
list keyed by peer id: JavaScript object assignment replaces the value of
an existing key in place and appends a fresh key at the end, which is
exactly what `regInsert` does; `delete` is `regErase`.
-/

/-- Kind of a media track, audio or video. -/
inductive TrackKind
  | audio
  | video
deriving DecidableEq

/-- One MediaStreamTrack: numeric identity, kind, the enabled flag toggled
by toggleAudio, and the stopped flag set by track.stop(). -/
structure MediaTrack where
  id : Nat
  kind : TrackKind
  enabled : Bool
  stopped : Bool
deriving DecidableEq

/-- Marks a track as stopped (track.stop()); stopping twice is a no-op. -/
def stopTrack (t : MediaTrack) : MediaTrack :=
  { t with stopped := true }

/-- One RTCRtpSender slot of a connection: it carries an optional track,
swapped by replaceTrack. -/
structure Sender where
  track : Option MediaTrack
deriving DecidableEq

/-- One MediaConnection handle: remote peer id, a numeric identity that
distinguishes distinct call objects, and the sender slots of its
underlying RTCPeerConnection. -/
structure Conn where
  peer : String
  cid : Nat
  senders : List Sender
deriving DecidableEq

/-- The connectionStatus state of the component. -/
inductive ConnStatus
  | connecting
  | connected
  | disconnected
  | error
deriving DecidableEq

/-! ### The connection registry (connections.current)

A JavaScript object keyed by peer id.  Assignment overwrites the entry of
an existing key in place and appends a new key at the end; lookup returns
the value of the first (under the no-duplicate-keys invariant: only)
matching key; delete removes the key. -/

/-- Object assignment connections.current[k] = v. -/
def regInsert (k : String) (v : Conn) : List (String × Conn) → List (String × Conn)
  | [] => [(k, v)]
  | e :: r => if e.1 = k then (k, v) :: r else e :: regInsert k v r

/-- Object lookup connections.current[k]. -/
def regLookup (k : String) : List (String × Conn) → Option Conn
  | [] => none
  | e :: r => if e.1 = k then some e.2 else regLookup k r

/-- Object key removal: delete connections.current[k]. -/
def regErase (k : String) : List (String × Conn) → List (String × Conn)
  | [] => []
  | e :: r => if e.1 = k then regErase k r else e :: regErase k r

/-! ### Event model of the steady-state handlers

The handlers installed by initPeer and listenForPeersInRoom mutate four
pieces of component state: the connection registry, the remoteStreams list,
the participantCount, and (for the listener) the set of calls originated.
Each transport or discovery event becomes one step of a transition
function.  The closedCalls field records every connection the handlers
close via call.close(); no steady-state handler in the source ever calls
close, so no step appends to it. -/

/-- One entry of the remoteStreams state array. -/
structure RemoteEntry where
  id : String
  streamId : Nat
  userName : String
deriving DecidableEq

/-- The component state touched by call and discovery handlers. -/
structure RoomState where
  registry : List (String × Conn)
  remoteStreams : List RemoteEntry
  participantCount : Nat
  dialed : List String
  closedCalls : List Nat
deriving DecidableEq

/-- Initial component state: empty registry, no remote streams,
participantCount starts at 1 (the local participant). -/
def initRoom : RoomState :=
  { registry := [], remoteStreams := [], participantCount := 1,
    dialed := [], closedCalls := [] }

/-- Events delivered to the handlers: an incoming transport call, a stream
arrival on an incoming or outgoing call, close and error events on either
direction, and a discovery-channel message observed by the listener
(carrying the local identity, the sender identity, the action string,
whether a local stream is observed, and the call object a dial would
produce). -/
inductive RoomEv
  | incomingCall (p : String) (c : Conn)
  | inStream (p : String) (sid : Nat)
  | outStream (p : String) (sid : Nat)
  | inClose (p : String)
  | outClose (p : String)
  | inError (p : String)
  | outError (p : String)
  | discoveryMsg (selfId p action : String) (hasLocalStream : Bool) (c : Conn)

/-- The setRemoteStreams updater shared by both stream handlers: add the
entry and increment participantCount only when no entry with that peer id
is present. -/
def addRemote (name p : String) (sid : Nat) (st : RoomState) : RoomState :=
  if st.remoteStreams.any (fun s => s.id == p) then st
  else
    { st with
      remoteStreams := st.remoteStreams ++ [{ id := p, streamId := sid, userName := name }],
      participantCount := st.participantCount + 1 }

/-- The close handlers: filter the remote stream of that peer out and
decrement participantCount, floored at 1 by Math.max. -/
def removeRemote (p : String) (st : RoomState) : RoomState :=
  { st with
    remoteStreams := st.remoteStreams.filter (fun s => s.id != p),
    participantCount := max 1 (st.participantCount - 1) }

/-- One handler invocation.  incomingCall registers the call (overwriting
any entry for that peer).  Stream events insert via addRemote with the
userName constant of the respective handler.  The incoming-close handler
removes the remote stream and decrements the count but does not touch the
registry; the outgoing-close handler also deletes the registry entry.
Error handlers only log.  A discovery message is dropped when it comes
from the local identity; on action join with a local stream observed the
listener dials (recorded in dialed) and registers the new call, with no
registry membership check. -/
def roomStep (st : RoomState) : RoomEv → RoomState
  | .incomingCall p c => { st with registry := regInsert p c st.registry }
  | .inStream p sid => addRemote "Participant" p sid st
  | .outStream p sid => addRemote "Remote User" p sid st
  | .inClose p => removeRemote p st
  | .outClose p => removeRemote p { st with registry := regErase p st.registry }
  | .inError _ => st
  | .outError _ => st
  | .discoveryMsg selfId p action hasStream c =>
    if p == selfId then st
    else if action == "join" then
      if hasStream then
        { st with dialed := st.dialed ++ [p], registry := regInsert p c st.registry }
      else st
    else st

/-- Runs a sequence of events from a state. -/
def roomRun (st : RoomState) : List RoomEv → RoomState
  | [] => st
  | e :: evs => roomRun (roomStep st e) evs

/-! ### Media state controller (toggleVideo)

State touched by toggleVideo: the local stream, the live connections with
their sender slots, the isVideoEnabled and isVideoLoading flags and the
status message. -/

/-- The component state read and written by toggleVideo. -/
structure MediaState where
  localStream : List MediaTrack
  conns : List Conn
  isVideoEnabled : Bool
  isVideoLoading : Bool
  errorMessage : String
deriving DecidableEq

/-- Predicate of the off-path sender search: a sender currently holding a
video track with the given track id. -/
def isVideoSenderFor (tid : Nat) (s : Sender) : Bool :=
  match s.track with
  | some tr => tr.kind == TrackKind.video && tr.id == tid
  | none => false

/-- Predicate of the on-path sender search: a sender currently holding
some video track. -/
def isVideoSender (s : Sender) : Bool :=
  match s.track with
  | some tr => tr.kind == TrackKind.video
  | none => false

/-- senders.find(...) followed by videoSender.replaceTrack(t): replaces
the track of the first sender matching the predicate; a no-op when no
sender matches. -/
def replaceFirstSender (pred : Sender → Bool) (newTr : Option MediaTrack) :
    List Sender → List Sender
  | [] => []
  | s :: ss => if pred s then { track := newTr } :: ss else s :: replaceFirstSender pred newTr ss

/-- Body of the off-path forEach over one video track: null out the first
matching video sender of every connection, then remove the track from the
local stream (and stop it). -/
def offOneTrack (t : MediaTrack) (st : MediaState) : MediaState :=
  { st with
    conns := st.conns.map (fun c =>
      { c with senders := replaceFirstSender (isVideoSenderFor t.id) none c.senders }),
    localStream := st.localStream.filter (fun u => u.id != t.id) }

/-- toggleVideo, off branch: iterate over the current video tracks,
nulling senders and removing each track, then clear isVideoEnabled and
set the status message when at least one track was removed. -/
def toggleVideoOff (st : MediaState) : MediaState :=
  let vts := st.localStream.filter (fun t => t.kind == TrackKind.video)
  let st1 := vts.foldl (fun s t => offOneTrack t s) st
  { st1 with
    isVideoEnabled := false,
    isVideoLoading := false,
    errorMessage := if vts.length > 0 then "Camera has been turned off completely." else st1.errorMessage }

/-- Outcome of the getUserMedia call of the on-path: the acquisition can
throw, or succeed and deliver an optional first video track. -/
inductive CamResult
  | camErr
  | camOk (vt : Option MediaTrack)
deriving DecidableEq

/-- toggleVideo, on branch.  On acquisition failure: surface the advisory
message and return with isVideoEnabled unchanged.  On success with a
track: add it to the local stream and, for every connection, replace the
track of the first sender that currently holds a video track (searched
with isVideoSender); then set isVideoEnabled. -/
def toggleVideoOn (acq : CamResult) (st : MediaState) : MediaState :=
  match acq with
  | .camErr =>
    { st with
      errorMessage := "Could not access camera. It might be in use by another application.",
      isVideoLoading := false }
  | .camOk none =>
    { st with
      isVideoEnabled := true,
      isVideoLoading := false,
      errorMessage := "Camera has been turned on." }
  | .camOk (some vt) =>
    { st with
      localStream := st.localStream ++ [vt],
      conns := st.conns.map (fun c =>
        { c with senders := replaceFirstSender isVideoSender (some vt) c.senders }),
      isVideoEnabled := true,
      isVideoLoading := false,
      errorMessage := "Camera has been turned on." }

/-- toggleVideo dispatches on isVideoEnabled. -/
def toggleVideo (acq : CamResult) (st : MediaState) : MediaState :=
  if st.isVideoEnabled then toggleVideoOff st else toggleVideoOn acq st

/-! ### Session teardown (leaveRoom)

leaveRoom runs four blocks in source order, each wrapped in its own
try/catch: (1) run and clear the stored cleanup functions, which close the
listener and announcer discovery-channel subscriptions; (2) stop every
track of the local and screen-share streams; (3) close every connection in
the registry and clear it; (4) disconnect and destroy the transport peer
(the disconnected event sets connectionStatus).  A block whose body throws
is caught; the embedding models a failing block as skipped whole.  The
returned action trace records what each block did, in execution order. -/

/-- The four teardown blocks of leaveRoom, in source order. -/
inductive LeaveStep
  | stopDiscovery
  | stopTracks
  | closeConnections
  | disposeTransport
deriving DecidableEq

/-- The two cleanup functions stored in cleanupFunctionsRef by the open
handler, in push order. -/
inductive CleanupKind
  | listenerCleanup
  | announcerCleanup
deriving DecidableEq

/-- Session state touched by leaveRoom. -/
structure SessionState where
  cleanups : List CleanupKind
  listenerActive : Bool
  announcerActive : Bool
  localTracks : List MediaTrack
  screenTracks : List MediaTrack
  registry : List (String × Conn)
  peerDestroyed : Bool
  status : ConnStatus
deriving DecidableEq

/-- Observable actions emitted during teardown. -/
inductive LeaveAction
  | ranCleanup (k : CleanupKind)
  | stoppedLocalTrack (i : Nat)
  | stoppedScreenTrack (i : Nat)
  | closedConn (p : String)
  | disconnectedPeer
  | destroyedPeer
deriving DecidableEq

/-- Block 1: run every stored cleanup function, then clear the list. -/
def stopDiscoveryStep (st : SessionState) : SessionState × List LeaveAction :=
  ({ st with
      listenerActive := if st.cleanups.contains CleanupKind.listenerCleanup then false else st.listenerActive,
      announcerActive := if st.cleanups.contains CleanupKind.announcerCleanup then false else st.announcerActive,
      cleanups := [] },
   st.cleanups.map LeaveAction.ranCleanup)

/-- Block 2: stop every local and screen-share track. -/
def stopTracksStep (st : SessionState) : SessionState × List LeaveAction :=
  ({ st with
      localTracks := st.localTracks.map stopTrack,
      screenTracks := st.screenTracks.map stopTrack },
   st.localTracks.map (fun t => LeaveAction.stoppedLocalTrack t.id) ++
     st.screenTracks.map (fun t => LeaveAction.stoppedScreenTrack t.id))

/-- Block 3: close every registered connection and clear the registry. -/
def closeConnsStep (st : SessionState) : SessionState × List LeaveAction :=
  ({ st with registry := [] },
   st.registry.map (fun e => LeaveAction.closedConn e.1))

/-- Block 4: peer.disconnect() and peer.destroy(); the disconnected event
handler sets connectionStatus to disconnected. -/
def disposeTransportStep (st : SessionState) : SessionState × List LeaveAction :=
  ({ st with peerDestroyed := true, status := ConnStatus.disconnected },
   [LeaveAction.disconnectedPeer, LeaveAction.destroyedPeer])

/-- leaveRoom: the four blocks in source order.  failAt models an
exception thrown inside a block: the block is caught and skipped, the
following blocks still run. -/
def leaveRoom (failAt : LeaveStep → Bool) (st : SessionState) :
    SessionState × List LeaveAction :=
  let r1 := if failAt LeaveStep.stopDiscovery then (st, ([] : List LeaveAction)) else stopDiscoveryStep st
  let r2 := if failAt LeaveStep.stopTracks then (r1.1, ([] : List LeaveAction)) else stopTracksStep r1.1
  let r3 := if failAt LeaveStep.closeConnections then (r2.1, ([] : List LeaveAction)) else closeConnsStep r2.1
  let r4 := if failAt LeaveStep.disposeTransport then (r3.1, ([] : List LeaveAction)) else disposeTransportStep r3.1
  (r4.1, r1.2 ++ r2.2 ++ r3.2 ++ r4.2)

/-- The state after a fault-free leaveRoom. -/
def leaveState (st : SessionState) : SessionState :=
  (leaveRoom (fun _ => false) st).1

/-- Teardown actions that release a resource held by a previous step:
closing a registered connection or running a stored discovery cleanup.
Stopping an already-stopped track and re-disconnecting a destroyed peer
are specified no-ops and are not releases. -/
def isReleaseAction : LeaveAction → Bool
  | LeaveAction.closedConn _ => true
  | LeaveAction.ranCleanup _ => true
  | _ => false

/-! ### Session start: media acquisition fallback and the mount guard -/

/-- Outcome of one navigator.mediaDevices.getUserMedia call: a stream, or
an exception carrying its name string. -/
inductive MediaResult
  | ok (tracks : List MediaTrack)
  | err (name : String)
deriving DecidableEq

/-- Observable outcome of initPeer up to the creation of the transport
peer.  stream is none when initialization aborted before setLocalStream;
peerCreated is false when the rethrown media error reached the outer
catch, which skips the new Peer construction. -/
structure InitOutcome where
  stream : Option (List MediaTrack)
  isAudioEnabled : Bool
  isVideoEnabled : Bool
  errorMessage : String
  connectionStatus : ConnStatus
  peerCreated : Bool
deriving DecidableEq

/-- The three-tier media acquisition of initPeer.  r1 is the audio+video
request, r2 the audio-only retry.  A first failure named NotReadableError
or AbortError triggers the audio-only retry; if that also fails an empty
stream is used and the session still connects.  Any other first-failure
name sets the permissions message and status error and rethrows; the
outer catch then sets the final message, so no peer is created. -/
def acquireMedia (r1 r2 : MediaResult) : InitOutcome :=
  match r1 with
  | .ok ts =>
    { stream := some ts, isAudioEnabled := true, isVideoEnabled := true,
      errorMessage := "", connectionStatus := ConnStatus.connecting, peerCreated := true }
  | .err n =>
    if n = "NotReadableError" ∨ n = "AbortError" then
      match r2 with
      | .ok ts =>
        { stream := some ts, isAudioEnabled := true, isVideoEnabled := false,
          errorMessage := "Camera is in use by another application. Using audio only mode.",
          connectionStatus := ConnStatus.connecting, peerCreated := true }
      | .err _ =>
        { stream := some [], isAudioEnabled := false, isVideoEnabled := false,
          errorMessage := "Could not access camera or microphone. Joining in view-only mode.",
          connectionStatus := ConnStatus.connected, peerCreated := true }
    else
      { stream := none, isAudioEnabled := true, isVideoEnabled := true,
        errorMessage := "Failed to initialize video chat",
        connectionStatus := ConnStatus.error, peerCreated := false }

/-- JavaScript string disjunction: the empty string is falsy. -/
def jsOrS (a b : String) : String :=
  if a = "" then b else a

/-- actualRoomId = roomId prop, else location.state roomId, else the route
parameter, else the empty string. -/
def resolveRoomId (propRoomId : String) (stateRoomId : Option String)
    (routeId : Option String) : String :=
  jsOrS propRoomId (jsOrS (stateRoomId.getD "") (routeId.getD ""))

/-- Observable outcome of the mount effect. -/
structure MountOutcome where
  errorMessage : String
  connectionStatus : ConnStatus
  mediaRequested : Bool
  peerCreated : Bool
  listenerStarted : Bool
  announcerStarted : Bool
deriving DecidableEq

/-- The mount effect: an empty resolved room id sets the error message and
status and returns before initPeer; otherwise initPeer runs the media
acquisition, creates the peer unless acquisition was fatal, and the
discovery listener and announcer start when the open event fires. -/
def mountRoom (rid : String) (r1 r2 : MediaResult) (openFired : Bool) : MountOutcome :=
  if rid = "" then
    { errorMessage := "Room ID is missing", connectionStatus := ConnStatus.error,
      mediaRequested := false, peerCreated := false,
      listenerStarted := false, announcerStarted := false }
  else
    let o := acquireMedia r1 r2
    { errorMessage := o.errorMessage, connectionStatus := o.connectionStatus,
      mediaRequested := true, peerCreated := o.peerCreated,
      listenerStarted := o.peerCreated && openFired,
      announcerStarted := o.peerCreated && openFired }

/-! ### Concrete values used by counterexamples and witnesses -/

/-- A call object for peer B. -/
def connB0 : Conn := { peer := "B", cid := 0, senders := [] }

/-- A second, distinct call object for peer B. -/
def connB1 : Conn := { peer := "B", cid := 1, senders := [] }

/-- The initial camera video track. -/
def vtOld : MediaTrack := { id := 0, kind := TrackKind.video, enabled := true, stopped := false }

/-- The reacquired camera video track. -/
def vtNew : MediaTrack := { id := 1, kind := TrackKind.video, enabled := true, stopped := false }

/-- The microphone track. -/
def atMic : MediaTrack := { id := 2, kind := TrackKind.audio, enabled := true, stopped := false }

/-- Media state with one audio and one video track and one live connection
whose video sender carries the current video track. -/
def mediaStEx : MediaState :=
  { localStream := [atMic, vtOld],
    conns := [{ peer := "B", cid := 0, senders := [{ track := some atMic }, { track := some vtOld }] }],
    isVideoEnabled := true, isVideoLoading := false, errorMessage := "" }

/-- The connection of mediaStEx as it looks after the off-path nulled its
video sender: the audio sender untouched, the video sender empty. -/
def connBStale : Conn :=
  { peer := "B", cid := 0, senders := [{ track := some atMic }, { track := none }] }

/-- Session state with active discovery, one local track and one
registered connection. -/
def sessStEx : SessionState :=
  { cleanups := [CleanupKind.listenerCleanup, CleanupKind.announcerCleanup],
    listenerActive := true, announcerActive := true,
    localTracks := [atMic], screenTracks := [],
    registry := [("B", connB0)],
    peerDestroyed := false, status := ConnStatus.connected }

/-- Room state with connections to B and C, used by witnesses. -/
def roomStEx : RoomState :=
  { registry := [("B", connB0), ("C", { peer := "C", cid := 7, senders := [] })],
    remoteStreams := [{ id := "B", streamId := 3, userName := "Participant" },
                      { id := "C", streamId := 4, userName := "Remote User" }],
    participantCount := 3, dialed := [], closedCalls := [] }

/-! ### Registry lemmas -/

/-- Lookup after insert of the same key returns the inserted value. -/
theorem regLookup_regInsert_self (k : String) (v : Conn) :
    ∀ r, regLookup k (regInsert k v r) = some v := by
  intro r
  induction r with
  | nil => simp [regInsert, regLookup]
  | cons e r ih =>
    by_cases h : e.1 = k
    · simp [regInsert, h, regLookup]
    · simp [regInsert, h, regLookup, ih]

/-- A key of the inserted registry is the inserted key or an old key. -/
theorem mem_map_fst_regInsert (k : String) (v : Conn) (x : String) :
    ∀ r, x ∈ (regInsert k v r).map Prod.fst → x = k ∨ x ∈ r.map Prod.fst := by
  intro r
  induction r with
  | nil =>
    intro h
    simp [regInsert] at h
    exact Or.inl h
  | cons e r ih =>
    by_cases he : e.1 = k
    · intro h
      simp [regInsert, he] at h
      rcases h with h | h
      · exact Or.inl h
      · exact Or.inr (by simp [h])
    · intro h
      simp [regInsert, he] at h
      rcases h with h | h
      · exact Or.inr (by simp [h])
      · rcases ih (by simpa using h) with h2 | h2
        · exact Or.inl h2
        · exact Or.inr (by simp; exact Or.inr (by simpa using h2))

/-- Insertion preserves distinctness of registry keys. -/
theorem regInsert_keys_nodup (k : String) (v : Conn) :
    ∀ r, (r.map Prod.fst).Nodup → ((regInsert k v r).map Prod.fst).Nodup := by
  intro r
  induction r with
  | nil => intro _; simp [regInsert]
  | cons e r ih =>
    intro h
    simp only [List.map_cons, List.nodup_cons] at h
    by_cases he : e.1 = k
    · have hrw : regInsert k v (e :: r) = (k, v) :: r := by simp [regInsert, he]
      rw [hrw, List.map_cons, List.nodup_cons]
      exact ⟨he ▸ h.1, h.2⟩
    · have hrw : regInsert k v (e :: r) = e :: regInsert k v r := by simp [regInsert, he]
      rw [hrw, List.map_cons, List.nodup_cons]
      refine ⟨?_, ih h.2⟩
      intro hmem
      rcases mem_map_fst_regInsert k v e.1 r hmem with h1 | h1
      · exact he h1
      · exact h.1 h1

/-- A key surviving erasure was a key before. -/
theorem mem_map_fst_regErase (k x : String) :
    ∀ r, x ∈ (regErase k r).map Prod.fst → x ∈ r.map Prod.fst := by
  intro r
  induction r with
  | nil =>
    intro h
    simp [regErase] at h
  | cons e r ih =>
    by_cases he : e.1 = k
    · intro h
      have hrw : regErase k (e :: r) = regErase k r := by simp [regErase, he]
      rw [hrw] at h
      exact List.mem_cons_of_mem _ (ih h)
    · intro h
      have hrw : regErase k (e :: r) = e :: regErase k r := by simp [regErase, he]
      rw [hrw, List.map_cons, List.mem_cons] at h
      rcases h with h | h
      · simp [h]
      · exact List.mem_cons_of_mem _ (ih h)

/-- Erasure preserves distinctness of registry keys. -/
theorem regErase_keys_nodup (k : String) :
    ∀ r, (r.map Prod.fst).Nodup → ((regErase k r).map Prod.fst).Nodup := by
  intro r
  induction r with
  | nil => intro _; simp [regErase]
  | cons e r ih =>
    intro h
    simp only [List.map_cons, List.nodup_cons] at h
    by_cases he : e.1 = k
    · simp only [regErase, if_pos he]
      exact ih h.2
    · simp only [regErase, if_neg he, List.map_cons, List.nodup_cons]
      exact ⟨fun hm => h.1 (mem_map_fst_regErase k e.1 r hm), ih h.2⟩

/-- Erasing one key leaves the lookup of every other key unchanged. -/
theorem regLookup_regErase_ne (k q : String) (h : q ≠ k) :
    ∀ r, regLookup q (regErase k r) = regLookup q r := by
  intro r
  induction r with
  | nil => simp [regErase, regLookup]
  | cons e r ih =>
    by_cases he : e.1 = k
    · have hq : e.1 ≠ q := fun hh => h (hh ▸ he)
      have h1 : regErase k (e :: r) = regErase k r := by simp [regErase, he]
      have h2 : regLookup q (e :: r) = regLookup q r := by simp [regLookup, hq]
      rw [h1, h2, ih]
    · by_cases hq : e.1 = q
      · have h1 : regErase k (e :: r) = e :: regErase k r := by simp [regErase, he]
        have h2 : regLookup q (e :: r) = some e.2 := by simp [regLookup, hq]
        have h3 : regLookup q (e :: regErase k r) = some e.2 := by simp [regLookup, hq]
        rw [h1, h2, h3]
      · have h1 : regErase k (e :: r) = e :: regErase k r := by simp [regErase, he]
        have h2 : regLookup q (e :: r) = regLookup q r := by simp [regLookup, hq]
        have h3 : regLookup q (e :: regErase k r) = regLookup q (regErase k r) := by
          simp [regLookup, hq]
        rw [h1, h3, h2, ih]

/-! ### Handler step lemmas -/

/-- addRemote never touches the registry. -/
theorem addRemote_registry (n p : String) (sid : Nat) (st : RoomState) :
    (addRemote n p sid st).registry = st.registry := by
  unfold addRemote
  split <;> rfl

/-- addRemote never touches dialed. -/
theorem addRemote_dialed (n p : String) (sid : Nat) (st : RoomState) :
    (addRemote n p sid st).dialed = st.dialed := by
  unfold addRemote
  split <;> rfl

/-- addRemote never touches closedCalls. -/
theorem addRemote_closedCalls (n p : String) (sid : Nat) (st : RoomState) :
    (addRemote n p sid st).closedCalls = st.closedCalls := by
  unfold addRemote
  split <;> rfl

/-- addRemote keeps the participant count at least 1. -/
theorem addRemote_count_ge (n p : String) (sid : Nat) (st : RoomState)
    (h : 1 ≤ st.participantCount) : 1 ≤ (addRemote n p sid st).participantCount := by
  unfold addRemote
  split
  · exact h
  · exact Nat.le_succ_of_le h

/-- addRemote preserves distinctness of remote stream ids. -/
theorem addRemote_ids_nodup (n p : String) (sid : Nat) (st : RoomState)
    (h : (st.remoteStreams.map RemoteEntry.id).Nodup) :
    ((addRemote n p sid st).remoteStreams.map RemoteEntry.id).Nodup := by
  unfold addRemote
  split
  · exact h
  · rename_i hany
    have hnot : p ∉ st.remoteStreams.map RemoteEntry.id := by
      intro hmem
      rcases List.mem_map.mp hmem with ⟨s, hs, hid⟩
      exact hany (List.any_eq_true.mpr ⟨s, hs, by simp [hid]⟩)
    simp only [List.map_append, List.map_cons, List.map_nil]
    rw [List.nodup_append]
    refine ⟨h, List.nodup_singleton p, ?_⟩
    intro x hx hx2
    simp only [List.mem_singleton] at hx2
    exact hnot (hx2 ▸ hx)

/-- A filtered remote stream list keeps distinct ids. -/
theorem nodup_ids_filter (q : RemoteEntry → Bool) (l : List RemoteEntry)
    (h : (l.map RemoteEntry.id).Nodup) :
    (((l.filter q).map RemoteEntry.id)).Nodup :=
  List.Nodup.sublist (List.Sublist.map RemoteEntry.id (List.filter_sublist l)) h

/-- Every handler keeps the participant count at least 1. -/
theorem roomStep_count_ge (st : RoomState) (e : RoomEv)
    (h : 1 ≤ st.participantCount) : 1 ≤ (roomStep st e).participantCount := by
  cases e with
  | incomingCall p c => exact h
  | inStream p sid => exact addRemote_count_ge _ p sid st h
  | outStream p sid => exact addRemote_count_ge _ p sid st h
  | inClose p => exact Nat.le_max_left 1 _
  | outClose p => exact Nat.le_max_left 1 _
  | inError p => exact h
  | outError p => exact h
  | discoveryMsg s p a hs c =>
    simp only [roomStep]
    split
    · exact h
    · split
      · split
        · exact h
        · exact h
      · exact h

/-- Every handler keeps the registry keys distinct. -/
theorem roomStep_keys_nodup (st : RoomState) (e : RoomEv)
    (h : (st.registry.map Prod.fst).Nodup) :
    ((roomStep st e).registry.map Prod.fst).Nodup := by
  cases e with
  | incomingCall p c => exact regInsert_keys_nodup p c st.registry h
  | inStream p sid => rw [roomStep, addRemote_registry]; exact h
  | outStream p sid => rw [roomStep, addRemote_registry]; exact h
  | inClose p => exact h
  | outClose p => exact regErase_keys_nodup p st.registry h
  | inError p => exact h
  | outError p => exact h
  | discoveryMsg s p a hs c =>
    simp only [roomStep]
    split
    · exact h
    · split
      · split
        · exact regInsert_keys_nodup p c st.registry h
        · exact h
      · exact h

/-- Every handler keeps the remote stream ids distinct. -/
theorem roomStep_ids_nodup (st : RoomState) (e : RoomEv)
    (h : (st.remoteStreams.map RemoteEntry.id).Nodup) :
    ((roomStep st e).remoteStreams.map RemoteEntry.id).Nodup := by
  cases e with
  | incomingCall p c => exact h
  | inStream p sid => exact addRemote_ids_nodup _ p sid st h
  | outStream p sid => exact addRemote_ids_nodup _ p sid st h
  | inClose p => exact nodup_ids_filter _ _ h
  | outClose p => exact nodup_ids_filter _ _ h
  | inError p => exact h
  | outError p => exact h
  | discoveryMsg s p a hs c =>
    simp only [roomStep]
    split
    · exact h
    · split
      · split
        · exact h
        · exact h
      · exact h

/-- No handler ever closes a connection. -/
theorem roomStep_closedCalls (st : RoomState) (e : RoomEv) :
    (roomStep st e).closedCalls = st.closedCalls := by
  cases e with
  | incomingCall p c => rfl
  | inStream p sid => exact addRemote_closedCalls _ p sid st
  | outStream p sid => exact addRemote_closedCalls _ p sid st
  | inClose p => rfl
  | outClose p => rfl
  | inError p => rfl
  | outError p => rfl
  | discoveryMsg s p a hs c =>
    simp only [roomStep]
    split
    · rfl
    · split
      · split
        · rfl
        · rfl
      · rfl

/-- Any property preserved by every handler step holds after any event
sequence from a state satisfying it. -/
theorem roomRun_preserve (P : RoomState → Prop)
    (hstep : ∀ st e, P st → P (roomStep st e)) :
    ∀ (evs : List RoomEv) (st : RoomState), P st → P (roomRun st evs) := by
  intro evs
  induction evs with
  | nil => intro st h; exact h
  | cons e evs ih => intro st h; exact ih (roomStep st e) (hstep st e h)

/-- A stream event for a peer already present in remoteStreams changes
nothing. -/
theorem addRemote_noop_of_mem (n p : String) (sid : Nat) (st : RoomState)
    (h : st.remoteStreams.any (fun s => s.id == p) = true) :
    addRemote n p sid st = st := by
  simp [addRemote, h]

/-- After addRemote, the peer has an entry in remoteStreams. -/
theorem addRemote_any_self (n p : String) (sid : Nat) (st : RoomState) :
    (addRemote n p sid st).remoteStreams.any (fun s => s.id == p) = true := by
  unfold addRemote
  split
  · rename_i h
    exact h
  · simp

/-- Stopping a track twice equals stopping it once. -/
theorem stopTrack_stopTrack (t : MediaTrack) : stopTrack (stopTrack t) = stopTrack t :=
  rfl

/-- A stopped track carries the stopped flag. -/
theorem stopped_stopTrack (t : MediaTrack) : (stopTrack t).stopped = true :=
  rfl

/-- Stopping every track twice equals stopping it once. -/
theorem map_stopTrack_idem (l : List MediaTrack) :
    (l.map stopTrack).map stopTrack = l.map stopTrack := by
  induction l with
  | nil => rfl
  | cons t l ih => simp [stopTrack, ih]

/-- After the stop pass, every track carries the stopped flag. -/
theorem all_stopped_map_stopTrack (l : List MediaTrack) :
    (l.map stopTrack).all (fun t => t.stopped) = true := by
  induction l with
  | nil => rfl
  | cons t l ih => simp [stopTrack, ih]

/-- Stop actions over local tracks are not release actions. -/
theorem filter_release_stopLocal (l : List MediaTrack) :
    (l.map (fun t => LeaveAction.stoppedLocalTrack t.id)).filter isReleaseAction = [] := by
  induction l with
  | nil => rfl
  | cons t l ih => simp [isReleaseAction, ih]

/-- Stop actions over screen tracks are not release actions. -/
theorem filter_release_stopScreen (l : List MediaTrack) :
    (l.map (fun t => LeaveAction.stoppedScreenTrack t.id)).filter isReleaseAction = [] := by
  induction l with
  | nil => rfl
  | cons t l ih => simp [isReleaseAction, ih]

/-! ### Claim theorems -/

/-- Claim C1, counterexample: after a first join announcement from peer B
the registry already holds an entry for B, yet a second join announcement
from B originates a second outbound call — the repeated announcement is
not a no-op and no registry membership check happens. -/
theorem listener_dials_despite_registry_entry :
    ((roomRun initRoom [RoomEv.discoveryMsg "A" "B" "join" true connB0]).registry.map Prod.fst
      = ["B"]) ∧
    (roomRun initRoom [RoomEv.discoveryMsg "A" "B" "join" true connB0,
        RoomEv.discoveryMsg "A" "B" "join" true connB1]).dialed = ["B", "B"] :=
  ⟨rfl, rfl⟩

/-- Claim C1, amended: the listener dials on every join announcement from
a distinct peer whenever a local stream is observed, without consulting
the registry, and the new call overwrites the registry entry; only a
self-announcement, a missing local stream, or a non-join action make the
message a no-op. -/
theorem listener_dial_policy (st : RoomState) (selfId p action : String) (c : Conn) :
    (p ≠ selfId → roomStep st (RoomEv.discoveryMsg selfId p "join" true c) =
      { st with dialed := st.dialed ++ [p], registry := regInsert p c st.registry }) ∧
    (roomStep st (RoomEv.discoveryMsg selfId selfId action true c) = st) ∧
    (p ≠ selfId → roomStep st (RoomEv.discoveryMsg selfId p "join" false c) = st) ∧
    (p ≠ selfId → action ≠ "join" →
      roomStep st (RoomEv.discoveryMsg selfId p action true c) = st) := by
  refine ⟨?_, ?_, ?_, ?_⟩
  · intro h
    simp [roomStep, h]
  · simp [roomStep]
  · intro h
    simp [roomStep, h]
  · intro h h2
    simp [roomStep, h, h2]

/-- Witness for listener_dial_policy at a concrete message. -/
theorem listener_dial_policy_witness :
    roomStep initRoom (RoomEv.discoveryMsg "A" "B" "join" true connB0) =
      { initRoom with dialed := initRoom.dialed ++ ["B"],
                      registry := regInsert "B" connB0 initRoom.registry } :=
  (listener_dial_policy initRoom "A" "B" "join" connB0).1 (by decide)

/-- Claim C2, counterexample: registering two incoming calls for the same
identity leaves the LATER call in the registry and closes nothing — the
first-to-stream connection is not kept and the later attempt is neither
rejected nor closed. -/
theorem register_duplicate_keeps_later_unclosed :
    regLookup "B" (roomRun initRoom
      [RoomEv.incomingCall "B" connB0, RoomEv.incomingCall "B" connB1]).registry
      = some connB1 ∧
    connB1 ≠ connB0 ∧
    (roomRun initRoom
      [RoomEv.incomingCall "B" connB0, RoomEv.incomingCall "B" connB1]).closedCalls = [] := by
  refine ⟨rfl, by decide, rfl⟩

/-- Claim C2, amended: the registry always has exactly one entry per
identity because it is keyed by identity, but registering twice keeps the
later call; no handler ever closes a call; and a duplicate stream event
for an identity already in remoteStreams leaves the participant count
unchanged. -/
theorem registry_single_entry_last_writer_wins :
    (∀ evs : List RoomEv, ((roomRun initRoom evs).registry.map Prod.fst).Nodup) ∧
    (∀ (r : List (String × Conn)) (p : String) (c1 c2 : Conn),
      regLookup p (regInsert p c2 (regInsert p c1 r)) = some c2) ∧
    (∀ evs : List RoomEv, (roomRun initRoom evs).closedCalls = []) ∧
    (∀ (st : RoomState) (n1 n2 p : String) (s1 s2 : Nat),
      (addRemote n2 p s2 (addRemote n1 p s1 st)).participantCount =
        (addRemote n1 p s1 st).participantCount) := by
  refine ⟨?_, ?_, ?_, ?_⟩
  · intro evs
    exact roomRun_preserve _ roomStep_keys_nodup evs initRoom (by simp [initRoom])
  · intro r p c1 c2
    exact regLookup_regInsert_self p c2 _
  · intro evs
    exact roomRun_preserve (fun st => st.closedCalls = [])
      (fun st e h => (roomStep_closedCalls st e).trans h) evs initRoom rfl
  · intro st n1 n2 p s1 s2
    rw [addRemote_noop_of_mem n2 p s2 _ (addRemote_any_self n1 p s1 st)]

/-- Claim C6: starting from the initial state, the participant count is
at least 1 after any sequence of handler events, including duplicate and
out-of-order close events. -/
theorem participantCount_ge_one (evs : List RoomEv) :
    1 ≤ (roomRun initRoom evs).participantCount :=
  roomRun_preserve (fun st => 1 ≤ st.participantCount) roomStep_count_ge evs initRoom
    (Nat.le_refl 1)

/-- Claim C8, counterexample: a close event on an INBOUND connection
leaves its registry entry in place, and an error event on a connection
changes no state at all — contrary to close or error always removing the
connection from the registry. -/
theorem inbound_close_keeps_registry_entry :
    regLookup "B" (roomRun initRoom [RoomEv.incomingCall "B" connB0,
        RoomEv.inStream "B" 5, RoomEv.inClose "B"]).registry = some connB0 ∧
    (roomRun initRoom [RoomEv.incomingCall "B" connB0, RoomEv.inStream "B" 5,
        RoomEv.inClose "B"]).remoteStreams = [] ∧
    roomRun initRoom [RoomEv.incomingCall "B" connB0, RoomEv.inStream "B" 5,
        RoomEv.inError "B"] =
      roomRun initRoom [RoomEv.incomingCall "B" connB0, RoomEv.inStream "B" 5] :=
  ⟨rfl, rfl, rfl⟩

/-- Claim C8, amended: an outbound close removes the registry entry,
filters the remote stream and decrements the count floored at 1; an
inbound close filters the remote stream and decrements floored at 1 but
leaves the registry untouched; error events change nothing; and no other
identity is affected by an outbound close. -/
theorem close_and_error_handler_effects (st : RoomState) (p : String) :
    ((roomStep st (RoomEv.outClose p)).registry = regErase p st.registry) ∧
    ((roomStep st (RoomEv.outClose p)).participantCount = max 1 (st.participantCount - 1)) ∧
    ((roomStep st (RoomEv.outClose p)).remoteStreams
      = st.remoteStreams.filter (fun s => s.id != p)) ∧
    ((roomStep st (RoomEv.inClose p)).registry = st.registry) ∧
    ((roomStep st (RoomEv.inClose p)).participantCount = max 1 (st.participantCount - 1)) ∧
    ((roomStep st (RoomEv.inClose p)).remoteStreams
      = st.remoteStreams.filter (fun s => s.id != p)) ∧
    (roomStep st (RoomEv.inError p) = st) ∧
    (roomStep st (RoomEv.outError p) = st) ∧
    (∀ q, q ≠ p →
      regLookup q ((roomStep st (RoomEv.outClose p)).registry) = regLookup q st.registry) := by
  refine ⟨rfl, rfl, rfl, rfl, rfl, rfl, rfl, rfl, ?_⟩
  intro q hq
  exact regLookup_regErase_ne p q hq st.registry

/-- Witness for close_and_error_handler_effects at a concrete state. -/
theorem close_and_error_handler_effects_witness :
    regLookup "C" ((roomStep roomStEx (RoomEv.outClose "B")).registry) =
      regLookup "C" roomStEx.registry :=
  (close_and_error_handler_effects roomStEx "B").2.2.2.2.2.2.2.2 "C" (by decide)

/-- Claim C10: remote stream ids are pairwise distinct in every reachable
state; an insertion for an identity already present is a no-op; removal
paths filter by id. -/
theorem remoteStreams_unique_ids :
    (∀ evs : List RoomEv, ((roomRun initRoom evs).remoteStreams.map RemoteEntry.id).Nodup) ∧
    (∀ (st : RoomState) (n p : String) (sid : Nat),
      st.remoteStreams.any (fun s => s.id == p) = true → addRemote n p sid st = st) ∧
    (∀ (st : RoomState) (p : String),
      (roomStep st (RoomEv.inClose p)).remoteStreams
          = st.remoteStreams.filter (fun s => s.id != p) ∧
        (roomStep st (RoomEv.outClose p)).remoteStreams
          = st.remoteStreams.filter (fun s => s.id != p)) := by
  refine ⟨?_, ?_, ?_⟩
  · intro evs
    exact roomRun_preserve _ roomStep_ids_nodup evs initRoom (by simp [initRoom])
  · intro st n p sid h
    exact addRemote_noop_of_mem n p sid st h
  · intro st p
    exact ⟨rfl, rfl⟩

/-- Witness for remoteStreams_unique_ids at a concrete state. -/
theorem remoteStreams_unique_ids_witness :
    addRemote "Participant" "B" 9 roomStEx = roomStEx :=
  remoteStreams_unique_ids.2.1 roomStEx "Participant" "B" 9 (by decide)

/-- Claim C3: with one live connection whose video sender carries the
current video track, toggleVideo off followed by toggleVideo on (camera
re-acquired as a fresh track) restores exactly one video track on the
local stream, but leaves the connection video sender with NO track: the
on-path searches for a sender that currently holds a video track, which
the off-path had already set to null, so replaceTrack never runs and the
sender does not point at the new local video track. -/
theorem toggleVideo_off_on_leaves_sender_empty :
    (toggleVideo (CamResult.camOk (some vtNew)) mediaStEx).isVideoEnabled = false ∧
    (toggleVideo (CamResult.camOk (some vtNew)) mediaStEx).conns = [connBStale] ∧
    (toggleVideo (CamResult.camOk (some vtNew))
        (toggleVideo (CamResult.camOk (some vtNew)) mediaStEx)).isVideoEnabled = true ∧
    (toggleVideo (CamResult.camOk (some vtNew))
        (toggleVideo (CamResult.camOk (some vtNew)) mediaStEx)).localStream.filter
      (fun t => t.kind == TrackKind.video) = [vtNew] ∧
    ((toggleVideo (CamResult.camOk (some vtNew))
        (toggleVideo (CamResult.camOk (some vtNew)) mediaStEx)).localStream.filter
      (fun t => t.kind == TrackKind.video)).length =
      (mediaStEx.localStream.filter (fun t => t.kind == TrackKind.video)).length ∧
    (toggleVideo (CamResult.camOk (some vtNew))
        (toggleVideo (CamResult.camOk (some vtNew)) mediaStEx)).conns = [connBStale] := by
  exact ⟨rfl, rfl, rfl, rfl, rfl, rfl⟩

/-- Claim C4, counterexample: on a state with one local track and one
registered connection, the fault-free teardown trace stops the local
track strictly BEFORE closing the registered connection, contradicting
the claimed order (close connections second, stop tracks third). -/
theorem leaveRoom_stops_tracks_before_closing_connections :
    ((leaveRoom (fun _ => false) sessStEx).2 =
      [LeaveAction.ranCleanup CleanupKind.listenerCleanup,
       LeaveAction.ranCleanup CleanupKind.announcerCleanup,
       LeaveAction.stoppedLocalTrack 2,
       LeaveAction.closedConn "B",
       LeaveAction.disconnectedPeer,
       LeaveAction.destroyedPeer]) ∧
    List.indexOf (LeaveAction.stoppedLocalTrack 2) (leaveRoom (fun _ => false) sessStEx).2 <
      List.indexOf (LeaveAction.closedConn "B") (leaveRoom (fun _ => false) sessStEx).2 := by
  refine ⟨rfl, by decide⟩

/-- Claim C4, amended: leaveRoom runs its four blocks in the source order
stop-discovery, stop-tracks, close-connections, dispose-transport, and a
block that throws is caught and does not prevent the later blocks: each
block takes effect exactly when it does not fail, independently of the
other blocks. -/
theorem leaveRoom_order_and_isolation (failAt : LeaveStep → Bool) (st : SessionState) :
    ((leaveRoom failAt st).2 =
      (if failAt LeaveStep.stopDiscovery then [] else (stopDiscoveryStep st).2) ++
      (if failAt LeaveStep.stopTracks then [] else (stopTracksStep st).2) ++
      (if failAt LeaveStep.closeConnections then [] else (closeConnsStep st).2) ++
      (if failAt LeaveStep.disposeTransport then [] else (disposeTransportStep st).2)) ∧
    ((leaveRoom failAt st).1.cleanups =
      (if failAt LeaveStep.stopDiscovery then st.cleanups else [])) ∧
    ((leaveRoom failAt st).1.localTracks =
      (if failAt LeaveStep.stopTracks then st.localTracks else st.localTracks.map stopTrack)) ∧
    ((leaveRoom failAt st).1.screenTracks =
      (if failAt LeaveStep.stopTracks then st.screenTracks else st.screenTracks.map stopTrack)) ∧
    ((leaveRoom failAt st).1.registry =
      (if failAt LeaveStep.closeConnections then st.registry else [])) ∧
    ((leaveRoom failAt st).1.status =
      (if failAt LeaveStep.disposeTransport then st.status else ConnStatus.disconnected)) ∧
    ((leaveRoom failAt st).1.peerDestroyed =
      (if failAt LeaveStep.disposeTransport then st.peerDestroyed else true)) := by
  cases h1 : failAt LeaveStep.stopDiscovery <;>
    cases h2 : failAt LeaveStep.stopTracks <;>
      cases h3 : failAt LeaveStep.closeConnections <;>
        cases h4 : failAt LeaveStep.disposeTransport <;>
          simp [leaveRoom, stopDiscoveryStep, stopTracksStep, closeConnsStep,
            disposeTransportStep, h1, h2, h3, h4]

/-- Claim C5: fault-free teardown is idempotent: a second leaveRoom
reproduces exactly the same state, that state has an empty registry, all
local and screen tracks stopped and status disconnected, and the second
invocation performs no release action (closes no connection, runs no
discovery cleanup). -/
theorem leaveRoom_idempotent (st : SessionState) :
    leaveState (leaveState st) = leaveState st ∧
    (leaveState st).registry = [] ∧
    ((leaveState st).localTracks.all (fun t => t.stopped) = true) ∧
    ((leaveState st).screenTracks.all (fun t => t.stopped) = true) ∧
    (leaveState st).status = ConnStatus.disconnected ∧
    (leaveRoom (fun _ => false) (leaveState st)).2.filter isReleaseAction = [] := by
  refine ⟨?_, ?_, ?_, ?_, ?_, ?_⟩
  · simp [leaveState, leaveRoom, stopDiscoveryStep, stopTracksStep, closeConnsStep,
      disposeTransportStep, map_stopTrack_idem, stopTrack_stopTrack]
  · simp [leaveState, leaveRoom, stopDiscoveryStep, stopTracksStep, closeConnsStep,
      disposeTransportStep]
  · simp [leaveState, leaveRoom, stopDiscoveryStep, stopTracksStep, closeConnsStep,
      disposeTransportStep, all_stopped_map_stopTrack, stopped_stopTrack]
  · simp [leaveState, leaveRoom, stopDiscoveryStep, stopTracksStep, closeConnsStep,
      disposeTransportStep, all_stopped_map_stopTrack, stopped_stopTrack]
  · simp [leaveState, leaveRoom, stopDiscoveryStep, stopTracksStep, closeConnsStep,
      disposeTransportStep]
  · simp [leaveState, leaveRoom, stopDiscoveryStep, stopTracksStep, closeConnsStep,
      disposeTransportStep, isReleaseAction, filter_release_stopLocal,
      filter_release_stopScreen, List.filter_append]

/-- Claim C7: the three-tier media fallback of session start: audio+video
success keeps both enabled; a NotReadableError or AbortError failure
retries audio-only with video disabled and the busy warning; a failed
retry joins with an empty stream, both flags disabled and status
connected; any other first-failure name is fatal: the error reaches the
outer catch, status becomes error and no transport peer is created. -/
theorem media_fallback_policy :
    (∀ (ts : List MediaTrack) (r2 : MediaResult),
      acquireMedia (MediaResult.ok ts) r2 =
        { stream := some ts, isAudioEnabled := true, isVideoEnabled := true,
          errorMessage := "", connectionStatus := ConnStatus.connecting,
          peerCreated := true }) ∧
    (∀ (n : String) (ts : List MediaTrack),
      (n = "NotReadableError" ∨ n = "AbortError") →
      acquireMedia (MediaResult.err n) (MediaResult.ok ts) =
        { stream := some ts, isAudioEnabled := true, isVideoEnabled := false,
          errorMessage := "Camera is in use by another application. Using audio only mode.",
          connectionStatus := ConnStatus.connecting, peerCreated := true }) ∧
    (∀ (n m : String),
      (n = "NotReadableError" ∨ n = "AbortError") →
      acquireMedia (MediaResult.err n) (MediaResult.err m) =
        { stream := some [], isAudioEnabled := false, isVideoEnabled := false,
          errorMessage := "Could not access camera or microphone. Joining in view-only mode.",
          connectionStatus := ConnStatus.connected, peerCreated := true }) ∧
    (∀ (n : String) (r2 : MediaResult),
      n ≠ "NotReadableError" → n ≠ "AbortError" →
      acquireMedia (MediaResult.err n) r2 =
        { stream := none, isAudioEnabled := true, isVideoEnabled := true,
          errorMessage := "Failed to initialize video chat",
          connectionStatus := ConnStatus.error, peerCreated := false }) := by
  refine ⟨fun ts r2 => rfl, ?_, ?_, ?_⟩
  · intro n ts h
    rcases h with rfl | rfl <;> rfl
  · intro n m h
    rcases h with rfl | rfl <;> rfl
  · intro n r2 h1 h2
    simp [acquireMedia, h1, h2]

/-- Witness for media_fallback_policy at concrete error names. -/
theorem media_fallback_policy_witness :
    acquireMedia (MediaResult.err "NotReadableError") (MediaResult.ok [atMic]) =
      { stream := some [atMic], isAudioEnabled := true, isVideoEnabled := false,
        errorMessage := "Camera is in use by another application. Using audio only mode.",
        connectionStatus := ConnStatus.connecting, peerCreated := true } ∧
    acquireMedia (MediaResult.err "NotAllowedError") (MediaResult.ok [atMic]) =
      { stream := none, isAudioEnabled := true, isVideoEnabled := true,
        errorMessage := "Failed to initialize video chat",
        connectionStatus := ConnStatus.error, peerCreated := false } :=
  ⟨media_fallback_policy.2.1 "NotReadableError" [atMic] (Or.inl rfl),
   media_fallback_policy.2.2.2 "NotAllowedError" (MediaResult.ok [atMic])
     (by decide) (by decide)⟩

/-- Claim C9: when the resolved room identifier is the empty string, the
mount effect sets the message Room ID is missing and status error and
returns before initPeer: no media request, no transport peer, no
discovery listener or announcer. -/
theorem empty_roomId_aborts_mount (propRoomId : String)
    (stateRoomId routeId : Option String) (r1 r2 : MediaResult) (openFired : Bool)
    (h : resolveRoomId propRoomId stateRoomId routeId = "") :
    mountRoom (resolveRoomId propRoomId stateRoomId routeId) r1 r2 openFired =
      { errorMessage := "Room ID is missing", connectionStatus := ConnStatus.error,
        mediaRequested := false, peerCreated := false,
        listenerStarted := false, announcerStarted := false } := by
  rw [h]
  rfl

/-- Witness for empty_roomId_aborts_mount with every source of the room
id absent. -/
theorem empty_roomId_aborts_mount_witness :
    mountRoom (resolveRoomId "" none none) (MediaResult.ok [atMic])
        (MediaResult.ok []) true =
      { errorMessage := "Room ID is missing", connectionStatus := ConnStatus.error,
        mediaRequested := false, peerCreated := false,
        listenerStarted := false, announcerStarted := false } :=
  empty_roomId_aborts_mount "" none none (MediaResult.ok [atMic]) (MediaResult.ok [])
    true rfl
